import Mathlib

/-!
Verification development for the redis-limpyd-jobs job-queue library.

The entity layer (`src/limpyd_jobs/models.py`) and the worker
(`src/limpyd_jobs/workers.py`) are shallowly embedded: the redis store
becomes an explicit `Store` value (association lists from primary key to
entity record), each classmethod becomes a pure function from `Store` to
`Store`, and the worker run loop becomes a function consuming an explicit
list of per-iteration inputs (the results of the blocking pop and the
behaviour of the application callback), which in the python program come
from the outside world.

Write effects whose relative ordering matters (the re-prioritisation path
of `Job.add_job`) are additionally recorded in an event trace, and the
worker records which primitives it invoked (blocking pop, callback, the
outcome handlers) in an event trace as well.
-/

namespace LimpydJobs

/-- The five job status constants of `limpyd_jobs.STATUSES`
(string constants in the source; the concrete string values are irrelevant
to the behaviour modelled here). -/
inductive Status where
  | WAITING
  | RUNNING
  | SUCCESS
  | ERROR
  | CANCELED
deriving DecidableEq, Repr

/-- A `Job` entity (models.py). Hash fields may be unset, hence `Option`;
`priority` is stored as an integer where set (`none` models an unset or
empty field, which `add_job` reads back as `int(... or 0)`).
The `end` field of the source is called `endt` (`end` is reserved). -/
structure Job where
  identifier : String
  status : Option Status
  priority : Option Int
  start : Option String
  endt : Option String
deriving DecidableEq, Repr

/-- A `Queue` entity (models.py): a (name, priority) tier with its
`waiting`, `success` and `errors` lists of job primary keys. -/
structure Queue where
  name : String
  priority : Int
  waiting : List Nat
  success : List Nat
  errors : List Nat
deriving DecidableEq, Repr

/-- An `Error` entity (models.py). `code` is unset when the exception had
no non-None `code` attribute. -/
structure Error where
  identifier : String
  queue_name : String
  date : String
  time : String
  type : String
  code : Option String
  message : String
deriving DecidableEq, Repr

/-- The redis store: entities of each model keyed by primary key
(association lists; first match wins on lookup, mirroring a key/value
store where primary keys are unique), plus the counters handing out fresh
primary keys. -/
structure Store where
  jobs : List (Nat × Job)
  queues : List (Nat × Queue)
  errors : List Error
  next_job_pk : Nat
  next_queue_pk : Nat
deriving DecidableEq, Repr

/-- Look an entity up by primary key. -/
def alookup {α : Type} (pk : Nat) (l : List (Nat × α)) : Option α :=
  (l.find? (fun p => p.1 == pk)).map (fun p => p.2)

/-- Rewrite the entity stored under a primary key. -/
def aupdate {α : Type} (pk : Nat) (f : α → α) (l : List (Nat × α)) : List (Nat × α) :=
  l.map (fun p => if p.1 = pk then (p.1, f p.2) else p)

/-- `Queue.get_queue(name, priority)`: `get_or_connect` on the indexed
fields `(name, priority)` — return the primary key of the existing tier,
or create it (with empty lists) under a fresh primary key.
`fields_if_new` is not modelled (every call site in the claims passes
none). -/
def Queue.get_queue (name : String) (priority : Int) (st : Store) : Nat × Store :=
  match st.queues.find? (fun p => decide (p.2.name = name ∧ p.2.priority = priority)) with
  | some p => (p.1, st)
  | none =>
    let pk := st.next_queue_pk
    (pk, { st with
            queues := st.queues ++
              [(pk, { name := name, priority := priority,
                      waiting := [], success := [], errors := [] })],
            next_queue_pk := pk + 1 })

/-- The redis key of a queue's `waiting` list field, following the
`namespace:model:pk:field` naming convention with namespace `jobs`. -/
def waiting_key (pk : Nat) : String :=
  "jobs:queue:" ++ toString pk ++ ":waiting"

/-- `Queue.collection(name=name)`: every queue entity whose `name` field
equals `name`. -/
def Queue.collection_with_name (name : String) (st : Store) : List (Nat × Queue) :=
  st.queues.filter (fun p => decide (p.2.name = name))

/-- The descending-priority order used by `sort(by=-priority)`. -/
def higher_or_equal (a b : Nat × Queue) : Prop :=
  b.2.priority ≤ a.2.priority

instance : DecidableRel higher_or_equal :=
  fun a b => Int.decLe b.2.priority a.2.priority

instance : IsTotal (Nat × Queue) higher_or_equal :=
  ⟨fun a b => le_total b.2.priority a.2.priority⟩

instance : IsTrans (Nat × Queue) higher_or_equal :=
  ⟨fun _ _ _ hab hbc => le_trans hbc hab⟩

/-- The queues named `name`, sorted by descending `priority`
(`cls.collection(name=name).sort(by=-priority)`). -/
def Queue.sorted_by_priority (name : String) (st : Store) : List (Nat × Queue) :=
  List.insertionSort higher_or_equal (Queue.collection_with_name name st)

/-- `Queue.get_keys(name)`: the `waiting`-list keys of all queues with
that name, in descending priority order — the key list handed to blpop. -/
def Queue.get_keys (name : String) (st : Store) : List String :=
  (Queue.sorted_by_priority name st).map (fun p => waiting_key p.1)

/-- One write effect issued by `Job.add_job`, recorded in order.
`lrem_waiting` and `push_waiting` name the tier (queue name and priority)
whose `waiting` list is touched; `push_waiting`'s boolean is the `prepend`
flag (`lpush` when true, `rpush` when false). -/
inductive WriteEv where
  | set_status (job_pk : Nat) (s : Status)
  | lrem_waiting (queue_name : String) (queue_priority : Int) (job_pk : Nat)
  | hmset_status_priority (job_pk : Nat) (s : Status) (priority : Int)
  | push_waiting (queue_name : String) (queue_priority : Int) (prepend : Bool) (job_pk : Nat)
deriving DecidableEq, Repr

/-- Result of `Job.add_job`: the returned job's primary key, the store
after the call, and the ordered trace of write effects. -/
structure AddJobRes where
  pk : Nat
  store : Store
  writes : List WriteEv
deriving DecidableEq, Repr

/-- `get_or_connect(identifier=identifier, status=WAITING)`, lookup half:
the first job entity with this identifier and status `WAITING`. -/
def findWaiting (identifier : String) (jobs : List (Nat × Job)) : Option (Nat × Job) :=
  jobs.find? (fun p => decide (p.2.identifier = identifier ∧ p.2.status = some Status.WAITING))

/-- `Job.add_job(identifier, queue_name, priority, prepend)` (models.py).
Faithful to the source: the target tier is resolved (creating it if
needed) first; then the `(identifier, status=WAITING)` job is fetched or
created; an existing job whose current priority (`int(hget() or 0)`) is
at least `priority` is returned untouched when `prepend` is false;
otherwise it is canceled, removed (all occurrences) from the
`(queue_name, current_priority)` tier's waiting list, re-marked
`status=WAITING, priority=priority` in one hmset, and pushed onto the
target tier (`lpush` when `prepend`, else `rpush`). A created job starts
with `status=WAITING` and the field default `priority=0` before the same
hmset and push. `fields_if_new` is not modelled (no claim passes it). -/
def Job.add_job (identifier queue_name : String) (priority : Int) (prepend : Bool)
    (st : Store) : AddJobRes :=
  let tq := Queue.get_queue queue_name priority st
  let target_pk := tq.1
  let st1 := tq.2
  match findWaiting identifier st1.jobs with
  | some (job_pk, job) =>
    let current_priority : Int := job.priority.getD 0
    if prepend = false ∧ priority ≤ current_priority then
      { pk := job_pk, store := st1, writes := [] }
    else
      let st2 := { st1 with
        jobs := aupdate job_pk (fun j => { j with status := some Status.CANCELED }) st1.jobs }
      let cq := Queue.get_queue queue_name current_priority st2
      let st3 := cq.2
      let st4 := { st3 with
        queues := aupdate cq.1
          (fun q => { q with waiting := q.waiting.filter (fun x => x != job_pk) }) st3.queues }
      let st5 := { st4 with
        jobs := aupdate job_pk
          (fun j => { j with status := some Status.WAITING, priority := some priority }) st4.jobs }
      let st6 := { st5 with
        queues := aupdate target_pk
          (fun q => { q with waiting := if prepend then job_pk :: q.waiting
                                        else q.waiting ++ [job_pk] }) st5.queues }
      { pk := job_pk, store := st6,
        writes := [WriteEv.set_status job_pk Status.CANCELED,
                   WriteEv.lrem_waiting queue_name current_priority job_pk,
                   WriteEv.hmset_status_priority job_pk Status.WAITING priority,
                   WriteEv.push_waiting queue_name priority prepend job_pk] }
  | none =>
    let job_pk := st1.next_job_pk
    let st2 := { st1 with
      jobs := st1.jobs ++
        [(job_pk, ({ identifier := identifier, status := some Status.WAITING,
                     priority := some 0, start := none, endt := none } : Job))],
      next_job_pk := job_pk + 1 }
    let st3 := { st2 with
      jobs := aupdate job_pk
        (fun j => { j with status := some Status.WAITING, priority := some priority }) st2.jobs }
    let st4 := { st3 with
      queues := aupdate target_pk
        (fun q => { q with waiting := if prepend then job_pk :: q.waiting
                                      else q.waiting ++ [job_pk] }) st3.queues }
    { pk := job_pk, store := st4,
      writes := [WriteEv.hmset_status_priority job_pk Status.WAITING priority,
                 WriteEv.push_waiting queue_name priority prepend job_pk] }

/-- `Job.duration` (models.py): `parse(end) - parse(start)` inside a bare
`try`, returning `None` on any failure. The dateutil parser is abstracted
as a function `parse` returning `none` exactly on unparseable input (a
raised exception); an unset field makes `parse` fail as well, so the whole
computation is the `Option` chain below. Timestamps and timedeltas are
integers. -/
def Job.duration (parse : String → Option Int) (j : Job) : Option Int :=
  match j.start, j.endt with
  | some s, some e =>
    match parse e, parse s with
    | some pe, some ps => some (pe - ps)
    | _, _ => none
  | _, _ => none

/-- A python datetime as consumed by `Error.add_error`: only its
`str(date())` and `str(time())` projections matter. -/
structure PyDateTime where
  date_str : String
  time_str : String
deriving DecidableEq, Repr

/-- An exception-like python value as consumed by `Error.add_error`:
`dunder_name` is the `__name__` attribute (present exactly when a class
rather than an instance was passed), `class_name` is
`error.__class__.__name__`, `str_repr` is `str(error)`, and `code` is
`getattr(error, code, None)`. -/
structure PyExc where
  dunder_name : Option String
  class_name : String
  str_repr : String
  code : Option String
deriving DecidableEq, Repr

/-- `Error.add_error(queue_name, identifier, error, when)` (models.py).
`utcnow` stands for `datetime.utcnow()`, used when `when` is `None`.
`additional_fields` is not modelled (no claim passes any). The created
record is appended to the store and returned. -/
def Error.add_error (queue_name identifier : String) (error : PyExc)
    (when : Option PyDateTime) (utcnow : PyDateTime) (st : Store) : Error × Store :=
  let w := when.getD utcnow
  let etype := match error.dunder_name with
    | some n => n
    | none => error.class_name
  let e : Error := { identifier := identifier, queue_name := queue_name,
                     date := w.date_str, time := w.time_str,
                     type := etype, code := error.code, message := error.str_repr }
  (e, { st with errors := st.errors ++ [e] })

/-- The worker-local `status` attribute
(`None/waiting/running/terminated/aborted`). -/
inductive WStatus where
  | waiting
  | running
  | terminated
  | aborted
deriving DecidableEq, Repr

/-- A `Worker` (workers.py): the configuration attributes the run loop
reads, and the mutable attributes set by `__init__` and updated while
running. Logging configuration and the model-class attributes are not
modelled (they have no effect on the behaviour under verification). -/
structure Worker where
  name : String
  max_loops : Nat
  terminate_gracefuly : Bool
  save_errors : Bool
  keys : List String
  num_loops : Nat
  end_forced : Bool
  end_signal_caught : Bool
  status : Option WStatus
deriving DecidableEq, Repr

/-- `Worker.must_stop`:
`terminate_gracefuly and end_signal_caught or num_loops >= max_loops or
end_forced`. -/
def Worker.must_stop (w : Worker) : Bool :=
  (w.terminate_gracefuly && w.end_signal_caught)
    || decide (w.max_loops ≤ w.num_loops) || w.end_forced

/-- `Worker.update_keys`: recompute `keys` from `Queue.get_keys(name)`;
if empty, log an error and set `end_forced`. -/
def Worker.update_keys (w : Worker) (st : Store) : Worker :=
  let keys := Queue.get_keys w.name st
  { w with keys := keys, end_forced := w.end_forced || keys.isEmpty }

/-- What one call to the blocking pop adapter produced: a timeout
(`blpop` returned `None`), an exception raised inside `wait_for_job`, or
a `(list key, job pk)` pair. -/
inductive PopResult where
  | timeout
  | failure
  | popped (queue_key : String) (job_pk : Nat)
deriving DecidableEq, Repr

/-- The outside-world inputs of one iteration of the run loop: the pop
result, whether the application callback raised (`some` exception) or
returned normally (`none`), and the `datetime.utcnow()` values read by
`job_started` / `job_success` / `job_error` and by `Error.add_error`. -/
structure LoopInput where
  pop : PopResult
  callback_exc : Option PyExc
  now_start : String
  now_end : String
  utcnow : PyDateTime
deriving DecidableEq, Repr

/-- The primitives an iteration invoked, in order. -/
inductive LoopEv where
  | blpop_called
  | callback_called (job_pk : Nat)
  | skipped (job_pk : Nat)
  | started (job_pk : Nat)
  | succeeded (job_pk : Nat)
  | errored (job_pk : Nat)
deriving DecidableEq, Repr

/-- Split a character list on the colon separator, python
`str.split(':')` style (the empty string yields one empty segment). -/
def split_colon : List Char → List (List Char)
  | [] => [[]]
  | c :: cs =>
    match split_colon cs with
    | [] => [[]]
    | seg :: rest => if c = ':' then [] :: seg :: rest else (c :: seg) :: rest

/-- The numeric value of a decimal digit character. -/
def digit_val (c : Char) : Option Nat :=
  if ('0' : Char) ≤ c ∧ c ≤ ('9' : Char) then some (c.toNat - ('0' : Char).toNat)
  else none

/-- Python `int(...)` on a digit string: decimal digits only, `none`
(a raised ValueError) otherwise. -/
def digits_to_nat : List Char → Option Nat
  | [] => none
  | c :: cs =>
    (c :: cs).foldl
      (fun acc d => match acc, digit_val d with
        | some n, some v => some (n * 10 + v)
        | _, _ => none)
      (some 0)

/-- `Worker.get_queue`, key half: `int(queue_redis_key.split(':')[-2])`,
raising (`none`) when there is no second-to-last segment (IndexError) or
it is not an integer (ValueError). -/
def parse_queue_pk (key : String) : Option Nat :=
  match (split_colon key.data).reverse with
  | _ :: pk_str :: _ => digits_to_nat pk_str
  | _ => none

/-- Result of one iteration of the run loop. -/
structure IterRes where
  worker : Worker
  store : Store
  events : List LoopEv
deriving DecidableEq, Repr

/-- The writes of `Worker.job_started`:
`job.hmset(start=now, status=RUNNING)`. -/
def Worker.job_started_write (job_pk : Nat) (now : String) (st : Store) : Store :=
  let f := fun (j : Job) => { j with start := some now, status := some Status.RUNNING }
  { st with jobs := aupdate job_pk f st.jobs }

/-- The writes of `Worker.job_success`:
`job.hmset(end=now, status=SUCCESS)`; `queue.success.rpush(job pk)`. -/
def Worker.job_success_write (queue_pk job_pk : Nat) (now : String) (st : Store) : Store :=
  let f := fun (j : Job) => { j with endt := some now, status := some Status.SUCCESS }
  let g := fun (q : Queue) => { q with success := q.success ++ [job_pk] }
  let st1 := { st with jobs := aupdate job_pk f st.jobs }
  { st1 with queues := aupdate queue_pk g st1.queues }

/-- The writes of `Worker.job_error`:
`job.hmset(end=now, status=ERROR)`; `queue.errors.rpush(job pk)`; when
`save_errors`, `Error.add_error(queue.name, job identifier, exception)`. -/
def Worker.job_error_write (w : Worker) (queue_pk job_pk : Nat) (now : String)
    (queue_name job_identifier : String) (exc : PyExc) (utcnow : PyDateTime)
    (st : Store) : Store :=
  let f := fun (j : Job) => { j with endt := some now, status := some Status.ERROR }
  let g := fun (q : Queue) => { q with errors := q.errors ++ [job_pk] }
  let st1 := { st with jobs := aupdate job_pk f st.jobs }
  let st2 := { st1 with queues := aupdate queue_pk g st1.queues }
  if w.save_errors then
    (Error.add_error queue_name job_identifier exc none utcnow st2).2
  else st2

/-- The body of the `while` loop of `Worker.run` (workers.py, lines
211-243). Mirrors the source: set `status=waiting`; call `wait_for_job`
(blpop; on a pair, set `status=running`, then resolve the queue from the
key and the job from the pk, either of which can raise into the outer
`except`, which logs and continues without counting the loop); on a
resolved pair increment `num_loops`, read the job's status, and either
skip (`job_skipped` only logs) or run `job_started`, the callback, and
`job_error`/`job_success`. -/
def Worker.run_iteration (w : Worker) (inp : LoopInput) (st : Store) : IterRes :=
  let w0 := { w with status := some WStatus.waiting }
  match inp.pop with
  | PopResult.timeout => { worker := w0, store := st, events := [LoopEv.blpop_called] }
  | PopResult.failure => { worker := w0, store := st, events := [LoopEv.blpop_called] }
  | PopResult.popped queue_key job_pk =>
    let w1 := { w0 with status := some WStatus.running }
    match parse_queue_pk queue_key with
    | none => { worker := w1, store := st, events := [LoopEv.blpop_called] }
    | some queue_pk =>
      match alookup queue_pk st.queues, alookup job_pk st.jobs with
      | some queue, some job =>
        let w2 := { w1 with num_loops := w1.num_loops + 1 }
        if job.status ≠ some Status.WAITING then
          { worker := w2, store := st,
            events := [LoopEv.blpop_called, LoopEv.skipped job_pk] }
        else
          let st1 := Worker.job_started_write job_pk inp.now_start st
          match inp.callback_exc with
          | none =>
            { worker := w2,
              store := Worker.job_success_write queue_pk job_pk inp.now_end st1,
              events := [LoopEv.blpop_called, LoopEv.started job_pk,
                         LoopEv.callback_called job_pk, LoopEv.succeeded job_pk] }
          | some exc =>
            { worker := w2,
              store := Worker.job_error_write w queue_pk job_pk inp.now_end
                         queue.name job.identifier exc inp.utcnow st1,
              events := [LoopEv.blpop_called, LoopEv.started job_pk,
                         LoopEv.callback_called job_pk, LoopEv.errored job_pk] }
      | _, _ => { worker := w1, store := st, events := [LoopEv.blpop_called] }

/-- Result of draining the loop: final worker and store, the ordered
event trace, and whether the loop exited through `must_stop` (`stopped`),
as opposed to running out of modelled inputs. -/
structure LoopRes where
  worker : Worker
  store : Store
  events : List LoopEv
  stopped : Bool
deriving DecidableEq, Repr

/-- The `while not must_stop()` loop of `Worker.run`, driven by the list
of per-iteration inputs. `stopped = false` means the input list was
exhausted while the python loop would still be running. -/
def Worker.run_loop (w : Worker) (inputs : List LoopInput) (st : Store)
    (acc : List LoopEv) : LoopRes :=
  match inputs with
  | [] =>
    if w.must_stop then { worker := w, store := st, events := acc, stopped := true }
    else { worker := w, store := st, events := acc, stopped := false }
  | inp :: rest =>
    if w.must_stop then { worker := w, store := st, events := acc, stopped := true }
    else
      let r := w.run_iteration inp st
      Worker.run_loop r.worker rest r.store (acc ++ r.events)

/-- How `Worker.run` ended. -/
inductive RunOutcome where
  | raised_implementation_error
  | aborted_no_keys
  | finished
  | out_of_inputs
deriving DecidableEq, Repr

/-- Result of `Worker.run`. -/
structure RunRes where
  worker : Worker
  store : Store
  events : List LoopEv
  outcome : RunOutcome
deriving DecidableEq, Repr

/-- `Worker.run` (workers.py): raise an implementation error (setting
`status=aborted`) when `status` is already non-null; `update_keys` and
abort when `end_forced` (in particular when no queue with the worker's
name exists); otherwise run the loop and set `status=terminated` when it
exits through `must_stop`. -/
def Worker.run (w : Worker) (inputs : List LoopInput) (st : Store) : RunRes :=
  if w.status.isSome then
    { worker := { w with status := some WStatus.aborted }, store := st,
      events := [], outcome := RunOutcome.raised_implementation_error }
  else
    let w1 := w.update_keys st
    if w1.end_forced then
      { worker := { w1 with status := some WStatus.aborted }, store := st,
        events := [], outcome := RunOutcome.aborted_no_keys }
    else
      let r := Worker.run_loop w1 inputs st []
      if r.stopped then
        { worker := { r.worker with status := some WStatus.terminated },
          store := r.store, events := r.events, outcome := RunOutcome.finished }
      else
        { worker := r.worker, store := r.store, events := r.events,
          outcome := RunOutcome.out_of_inputs }

/-! ## Helper lemmas -/

/-- The `waiting` list of the queue stored under `qpk` (empty when no
such queue exists). -/
def owaiting (st : Store) (qpk : Nat) : List Nat :=
  ((alookup qpk st.queues).map Queue.waiting).getD []

theorem get_queue_jobs (name : String) (priority : Int) (st : Store) :
    (Queue.get_queue name priority st).2.jobs = st.jobs := by
  unfold Queue.get_queue
  split <;> rfl

theorem get_queue_owaiting (name : String) (priority : Int) (st : Store) (qpk : Nat) :
    owaiting (Queue.get_queue name priority st).2 qpk = owaiting st qpk := by
  unfold Queue.get_queue owaiting alookup
  split
  · rfl
  · cases h : st.queues.find? (fun p => p.1 == qpk) with
    | some x => simp [List.find?_append, h]
    | none =>
      simp [List.find?_append, h, List.find?]
      split <;> simp

/-- `Job.add_job`, untouched branch: an existing waiting job whose
current priority is at least the requested one, with `prepend` false, is
returned as is (only the target tier resolution may have created a fresh
empty queue). -/
theorem add_job_untouched (identifier queue_name : String) (priority : Int)
    (st : Store) (job_pk : Nat) (job : Job)
    (hfind : findWaiting identifier st.jobs = some (job_pk, job))
    (hge : priority ≤ job.priority.getD 0) :
    Job.add_job identifier queue_name priority false st =
      { pk := job_pk, store := (Queue.get_queue queue_name priority st).2, writes := [] } := by
  have hjobs := get_queue_jobs queue_name priority st
  simp only [Job.add_job, hjobs, hfind]
  rw [if_pos ⟨by trivial, hge⟩]

/-- `Job.add_job`, moved branch: the write trace when an existing waiting
job is re-enqueued. -/
theorem add_job_moved_writes (identifier queue_name : String) (priority : Int)
    (prepend : Bool) (st : Store) (job_pk : Nat) (job : Job)
    (hfind : findWaiting identifier st.jobs = some (job_pk, job))
    (hcond : ¬(prepend = false ∧ priority ≤ job.priority.getD 0)) :
    (Job.add_job identifier queue_name priority prepend st).writes =
      [WriteEv.set_status job_pk Status.CANCELED,
       WriteEv.lrem_waiting queue_name (job.priority.getD 0) job_pk,
       WriteEv.hmset_status_priority job_pk Status.WAITING priority,
       WriteEv.push_waiting queue_name priority prepend job_pk] := by
  have hjobs := get_queue_jobs queue_name priority st
  simp only [Job.add_job, hjobs, hfind]
  rw [if_neg hcond]

/-! ## Concrete fixtures for the witnesses -/

/-- A waiting job at priority 5. -/
def exJob : Job :=
  { identifier := "x", status := some Status.WAITING, priority := some 5,
    start := none, endt := none }

/-- A store with the single waiting job `exJob` sitting in the tier
`(q, 5)`. -/
def exStore : Store :=
  { jobs := [(1, exJob)],
    queues := [(1, { name := "q", priority := 5, waiting := [1],
                     success := [], errors := [] })],
    errors := [], next_job_pk := 2, next_queue_pk := 2 }

/-! ## Claims -/

/-- Claim C1: when a waiting job with the requested identifier already
exists at current priority at least the requested one and `prepend` is
false, `Job.add_job` returns that job with an empty write trace, leaving
every job record and every queue's waiting list unchanged, so the job's
priority ends at the maximum of the two priorities. -/
theorem add_job_no_demote (identifier queue_name : String) (priority : Int)
    (st : Store) (job_pk : Nat) (job : Job)
    (hfind : findWaiting identifier st.jobs = some (job_pk, job))
    (hge : priority ≤ job.priority.getD 0) :
    Job.add_job identifier queue_name priority false st =
      { pk := job_pk, store := (Queue.get_queue queue_name priority st).2, writes := [] }
    ∧ (Queue.get_queue queue_name priority st).2.jobs = st.jobs
    ∧ (∀ qpk, owaiting (Queue.get_queue queue_name priority st).2 qpk = owaiting st qpk)
    ∧ (findWaiting identifier
        (Job.add_job identifier queue_name priority false st).store.jobs).map
          (fun p => p.2.priority.getD 0) = some (max (job.priority.getD 0) priority) := by
  have hjobs := get_queue_jobs queue_name priority st
  have h1 := add_job_untouched identifier queue_name priority st job_pk job hfind hge
  refine ⟨h1, hjobs, fun qpk => get_queue_owaiting queue_name priority st qpk, ?_⟩
  rw [h1]
  dsimp only
  rw [hjobs, hfind]
  simp [max_eq_left hge]

/-- Witness for C1 on a concrete store: re-enqueueing the priority-5
waiting job at priority 3 leaves everything untouched. -/
theorem add_job_no_demote_witness :
    Job.add_job "x" "q" 3 false exStore =
      { pk := 1, store := (Queue.get_queue "q" 3 exStore).2, writes := [] } := by
  have h := add_job_no_demote "x" "q" 3 exStore 1 exJob (by decide) (by decide)
  exact h.1

/-- Claim C2: when an existing waiting job is moved (because `prepend` is
set or the requested priority is strictly higher), the writes happen in
this order: status set to CANCELED; removal of the pk from the waiting
list of the source tier (queue name, current priority); one hmset writing
status WAITING and the new priority; a push onto the target tier
(queue name, new priority), on the left iff `prepend`. -/
theorem add_job_move_write_order (identifier queue_name : String) (priority : Int)
    (prepend : Bool) (st : Store) (job_pk : Nat) (job : Job)
    (hfind : findWaiting identifier st.jobs = some (job_pk, job))
    (hmove : prepend = true ∨ job.priority.getD 0 < priority) :
    (Job.add_job identifier queue_name priority prepend st).writes =
      [WriteEv.set_status job_pk Status.CANCELED,
       WriteEv.lrem_waiting queue_name (job.priority.getD 0) job_pk,
       WriteEv.hmset_status_priority job_pk Status.WAITING priority,
       WriteEv.push_waiting queue_name priority prepend job_pk] := by
  refine add_job_moved_writes identifier queue_name priority prepend st job_pk job hfind ?_
  rcases hmove with h | h
  · rintro ⟨hp, _⟩
    rw [h] at hp
    cases hp
  · rintro ⟨_, hle⟩
    exact absurd h (not_lt.mpr hle)

/-- Witness for C2 on a concrete store: promoting the priority-5 waiting
job to priority 7 issues exactly the four writes in order. -/
theorem add_job_move_write_order_witness :
    (Job.add_job "x" "q" 7 false exStore).writes =
      [WriteEv.set_status 1 Status.CANCELED,
       WriteEv.lrem_waiting "q" 5 1,
       WriteEv.hmset_status_priority 1 Status.WAITING 7,
       WriteEv.push_waiting "q" 7 false 1] := by
  have h := add_job_move_write_order "x" "q" 7 false exStore 1 exJob (by decide)
    (Or.inr (by decide))
  exact h

/-- Claim C10: an existing waiting job whose priority field is unset is
treated as having current priority 0, both in the untouched/move decision
and in the choice of the source tier the pk is removed from. -/
theorem add_job_unset_priority_zero (identifier queue_name : String) (priority : Int)
    (prepend : Bool) (st : Store) (job_pk : Nat) (job : Job)
    (hfind : findWaiting identifier st.jobs = some (job_pk, job))
    (hnone : job.priority = none) :
    ((prepend = false ∧ priority ≤ 0) →
      Job.add_job identifier queue_name priority prepend st =
        { pk := job_pk, store := (Queue.get_queue queue_name priority st).2, writes := [] })
    ∧ ((prepend = true ∨ 0 < priority) →
      (Job.add_job identifier queue_name priority prepend st).writes =
        [WriteEv.set_status job_pk Status.CANCELED,
         WriteEv.lrem_waiting queue_name 0 job_pk,
         WriteEv.hmset_status_priority job_pk Status.WAITING priority,
         WriteEv.push_waiting queue_name priority prepend job_pk]) := by
  have hgd : job.priority.getD 0 = 0 := by rw [hnone]; rfl
  constructor
  · rintro ⟨hp, hle⟩
    subst hp
    exact add_job_untouched identifier queue_name priority st job_pk job hfind
      (by rw [hgd]; exact hle)
  · intro hmove
    have h := add_job_moved_writes identifier queue_name priority prepend st job_pk job hfind ?_
    · rw [hgd] at h
      exact h
    · rcases hmove with h | h
      · rintro ⟨hp, _⟩
        rw [h] at hp
        cases hp
      · rintro ⟨_, hle⟩
        rw [hgd] at hle
        exact absurd h (not_lt.mpr hle)

/-- A waiting job whose priority field is unset. -/
def exJobNone : Job :=
  { identifier := "y", status := some Status.WAITING, priority := none,
    start := none, endt := none }

/-- A store holding `exJobNone` in the tier `(q, 0)`. -/
def exStoreNone : Store :=
  { jobs := [(1, exJobNone)],
    queues := [(1, { name := "q", priority := 0, waiting := [1],
                     success := [], errors := [] })],
    errors := [], next_job_pk := 2, next_queue_pk := 2 }

/-- Witness for C10 on a concrete store: with an unset priority field,
re-enqueueing at priority 2 removes the pk from the tier at priority 0. -/
theorem add_job_unset_priority_zero_witness :
    (Job.add_job "y" "q" 2 false exStoreNone).writes =
      [WriteEv.set_status 1 Status.CANCELED,
       WriteEv.lrem_waiting "q" 0 1,
       WriteEv.hmset_status_priority 1 Status.WAITING 2,
       WriteEv.push_waiting "q" 2 false 1] := by
  have h := add_job_unset_priority_zero "y" "q" 2 false exStoreNone 1 exJobNone
    (by decide) (by decide)
  exact h.2 (Or.inr (by decide))

/-- Claim C3: a popped job whose status reads as anything but WAITING is
skipped — the iteration fires `job_skipped` (which only logs), the
callback is not invoked, and the store (job fields, queue success and
errors lists, error records) is completely unchanged. -/
theorem run_iteration_skips_non_waiting (w : Worker) (inp : LoopInput) (st : Store)
    (queue_key : String) (job_pk queue_pk : Nat) (queue : Queue) (job : Job)
    (hpop : inp.pop = PopResult.popped queue_key job_pk)
    (hkey : parse_queue_pk queue_key = some queue_pk)
    (hq : alookup queue_pk st.queues = some queue)
    (hj : alookup job_pk st.jobs = some job)
    (hstatus : job.status ≠ some Status.WAITING) :
    Worker.run_iteration w inp st =
      { worker := { w with status := some WStatus.running, num_loops := w.num_loops + 1 },
        store := st,
        events := [LoopEv.blpop_called, LoopEv.skipped job_pk] }
    ∧ (∀ p, LoopEv.callback_called p ∉ (Worker.run_iteration w inp st).events) := by
  have h1 : Worker.run_iteration w inp st =
      { worker := { w with status := some WStatus.running, num_loops := w.num_loops + 1 },
        store := st,
        events := [LoopEv.blpop_called, LoopEv.skipped job_pk] } := by
    simp only [Worker.run_iteration, hpop, hkey, hq, hj]
    rw [if_pos hstatus]
  refine ⟨h1, ?_⟩
  intro p
  rw [h1]
  simp

/-- A canceled job sitting in the waiting list of the `(q, 0)` tier. -/
def exJobCanceled : Job :=
  { identifier := "z", status := some Status.CANCELED, priority := some 0,
    start := none, endt := none }

/-- Store for the skip scenario: the canceled job's pk is still in a
waiting list. -/
def exStoreCanceled : Store :=
  { jobs := [(1, exJobCanceled)],
    queues := [(1, { name := "q", priority := 0, waiting := [1],
                     success := [], errors := [] })],
    errors := [], next_job_pk := 2, next_queue_pk := 2 }

/-- A worker bound to queue name `q`, fresh out of `__init__`. -/
def exWorker : Worker :=
  { name := "q", max_loops := 1000, terminate_gracefuly := true,
    save_errors := true, keys := [waiting_key 1], num_loops := 0,
    end_forced := false, end_signal_caught := false, status := none }

/-- Iteration input: the pop handed back the canceled job. -/
def exInputPop : LoopInput :=
  { pop := PopResult.popped (waiting_key 1) 1, callback_exc := none,
    now_start := "2013-01-01 00:00:00", now_end := "2013-01-01 00:00:01",
    utcnow := { date_str := "2013-01-01", time_str := "00:00:01" } }

/-- Witness for C3: popping the concrete canceled job skips it and
leaves the store untouched. -/
theorem run_iteration_skips_non_waiting_witness :
    Worker.run_iteration exWorker exInputPop exStoreCanceled =
      { worker := { exWorker with status := some WStatus.running, num_loops := 1 },
        store := exStoreCanceled,
        events := [LoopEv.blpop_called, LoopEv.skipped 1] } := by
  have h := run_iteration_skips_non_waiting exWorker exInputPop exStoreCanceled
    (waiting_key 1) 1 1
    { name := "q", priority := 0, waiting := [1], success := [], errors := [] }
    exJobCanceled rfl (by decide) (by decide) (by decide) (by decide)
  exact h.1

/-- Claim C4: calling `run` on a worker whose status is non-null only
flips the status to aborted and raises an implementation error — the
store is untouched, the key list is not recomputed, and the loop is never
entered (no events). -/
theorem run_twice_aborts (w : Worker) (inputs : List LoopInput) (st : Store)
    (s : WStatus) (h : w.status = some s) :
    Worker.run w inputs st =
      { worker := { w with status := some WStatus.aborted }, store := st,
        events := [], outcome := RunOutcome.raised_implementation_error } := by
  simp [Worker.run, h]

/-- Witness for C4: a terminated worker re-run aborts at once. -/
theorem run_twice_aborts_witness :
    Worker.run { exWorker with status := some WStatus.terminated } [] exStore =
      { worker := { exWorker with status := some WStatus.aborted }, store := exStore,
        events := [], outcome := RunOutcome.raised_implementation_error } := by
  have h := run_twice_aborts { exWorker with status := some WStatus.terminated }
    [] exStore WStatus.terminated rfl
  exact h

/-- Claim C6: a worker whose name matches no queue (`get_keys` empty)
aborts from `run` before the loop: `end_forced` is set, status becomes
aborted, and neither the blocking pop nor the callback is ever invoked
(the event trace is empty); the store is untouched. -/
theorem run_no_queues_aborts (w : Worker) (inputs : List LoopInput) (st : Store)
    (hs : w.status = none)
    (hkeys : Queue.get_keys w.name st = []) :
    Worker.run w inputs st =
      { worker := { w with keys := [], end_forced := true, status := some WStatus.aborted },
        store := st, events := [], outcome := RunOutcome.aborted_no_keys } := by
  simp [Worker.run, hs, Worker.update_keys, hkeys]

/-- Witness for C6: a worker bound to a name with no queues aborts. -/
theorem run_no_queues_aborts_witness :
    Worker.run { exWorker with name := "nosuch" } [exInputPop] exStore =
      { worker := { exWorker with name := "nosuch", keys := [], end_forced := true, status := some WStatus.aborted },
        store := exStore, events := [], outcome := RunOutcome.aborted_no_keys } := by
  have h := run_no_queues_aborts { exWorker with name := "nosuch" } [exInputPop]
    exStore rfl (by decide)
  exact h

/-- Claim C5: `num_loops` counts successful dispatches only — an
iteration whose blocking pop timed out or raised leaves it unchanged, an
iteration that popped and resolved a job increments it by one — and once
`num_loops` has reached `max_loops` the loop head stops the worker
without consuming any further input. -/
theorem num_loops_counting (w : Worker) (inp : LoopInput) (st : Store) :
    ((inp.pop = PopResult.timeout ∨ inp.pop = PopResult.failure) →
      (Worker.run_iteration w inp st).worker.num_loops = w.num_loops)
    ∧ (∀ queue_key job_pk queue_pk queue job,
        inp.pop = PopResult.popped queue_key job_pk →
        parse_queue_pk queue_key = some queue_pk →
        alookup queue_pk st.queues = some queue →
        alookup job_pk st.jobs = some job →
        (Worker.run_iteration w inp st).worker.num_loops = w.num_loops + 1)
    ∧ (∀ inputs acc, w.max_loops ≤ w.num_loops →
        Worker.run_loop w inputs st acc =
          { worker := w, store := st, events := acc, stopped := true }) := by
  refine ⟨?_, ?_, ?_⟩
  · rintro (h | h) <;> simp [Worker.run_iteration, h]
  · intro queue_key job_pk queue_pk queue job hpop hkey hq hj
    simp only [Worker.run_iteration, hpop, hkey, hq, hj]
    by_cases hst : job.status ≠ some Status.WAITING
    · rw [if_pos hst]
    · rw [if_neg hst]
      cases inp.callback_exc <;> rfl
  · intro inputs acc h
    have hms : w.must_stop = true := by
      simp [Worker.must_stop, h]
    cases inputs <;> simp [Worker.run_loop, hms]

/-- Witness for C5: on the concrete store, a timeout iteration leaves
`num_loops` at 0, a popped-and-resolved iteration moves it to 1, and a
worker already at `max_loops` stops at the loop head. -/
theorem num_loops_counting_witness :
    (Worker.run_iteration exWorker
      { exInputPop with pop := PopResult.timeout } exStore).worker.num_loops = 0
    ∧ (Worker.run_iteration exWorker exInputPop exStore).worker.num_loops = 1
    ∧ Worker.run_loop { exWorker with num_loops := 1000 } [exInputPop] exStore [] =
        { worker := { exWorker with num_loops := 1000 }, store := exStore,
          events := [], stopped := true } := by
  refine ⟨?_, ?_, ?_⟩
  · have h := num_loops_counting exWorker
      { exInputPop with pop := PopResult.timeout } exStore
    exact h.1 (Or.inl rfl)
  · have h := num_loops_counting exWorker exInputPop exStore
    exact h.2.1 (waiting_key 1) 1 1
      { name := "q", priority := 5, waiting := [1], success := [], errors := [] }
      exJob rfl (by decide) (by decide) (by decide)
  · have h := num_loops_counting { exWorker with num_loops := 1000 } exInputPop exStore
    exact h.2.2 [exInputPop] [] (by decide)

/-- A descending chain whose neighbouring priorities are pairwise
distinct is strictly descending. -/
theorem pairwise_strict_of_sorted (l : List (Nat × Queue))
    (h1 : l.Pairwise higher_or_equal)
    (h2 : l.Pairwise (fun a b => a.2.priority ≠ b.2.priority)) :
    l.Pairwise (fun a b => b.2.priority < a.2.priority) := by
  induction l with
  | nil => exact List.Pairwise.nil
  | cons x xs ih =>
    rw [List.pairwise_cons] at h1 h2 ⊢
    refine ⟨fun y hy => ?_, ih h1.2 h2.2⟩
    exact lt_of_le_of_ne (h1.1 y hy) (fun he => h2.1 y hy he.symm)

/-- Claim C7: `Queue.get_keys(name)` returns the waiting-list keys of the
queues sorted by descending priority; the sorted list is a permutation of
exactly the queue entities whose name matches; and when those entities
carry pairwise distinct priorities (the `(name, priority)` uniqueness
invariant maintained by `get_or_connect`), the order is strictly
descending. This list is what `update_keys` installs as the blpop key
order. -/
theorem get_keys_strict_priority_order (name : String) (st : Store)
    (hdist : (Queue.collection_with_name name st).Pairwise
      (fun a b => a.2.priority ≠ b.2.priority)) :
    Queue.get_keys name st =
      (Queue.sorted_by_priority name st).map (fun p => waiting_key p.1)
    ∧ (Queue.sorted_by_priority name st).Perm (Queue.collection_with_name name st)
    ∧ (∀ x, x ∈ Queue.collection_with_name name st ↔
        (x ∈ st.queues ∧ x.2.name = name))
    ∧ (Queue.sorted_by_priority name st).Pairwise
        (fun a b => b.2.priority < a.2.priority)
    ∧ (∀ w : Worker, (Worker.update_keys w st).keys = Queue.get_keys w.name st) := by
  have hperm : (Queue.sorted_by_priority name st).Perm
      (Queue.collection_with_name name st) :=
    List.perm_insertionSort higher_or_equal (Queue.collection_with_name name st)
  have hsorted : List.Pairwise higher_or_equal (Queue.sorted_by_priority name st) :=
    List.sorted_insertionSort higher_or_equal (Queue.collection_with_name name st)
  refine ⟨rfl, hperm, ?_, ?_, fun w => rfl⟩
  · intro x
    simp [Queue.collection_with_name, List.mem_filter]
  · have hne : (Queue.sorted_by_priority name st).Pairwise
        (fun a b => a.2.priority ≠ b.2.priority) :=
      (List.Perm.pairwise_iff (fun hab => hab.symm) hperm).2 hdist
    exact pairwise_strict_of_sorted _ hsorted hne

/-- Store with two tiers named `q` (priorities 0 and 5) and one queue
with another name. -/
def exStoreTwoTiers : Store :=
  { jobs := [],
    queues := [(1, { name := "q", priority := 0, waiting := [7],
                     success := [], errors := [] }),
               (2, { name := "q", priority := 5, waiting := [8],
                     success := [], errors := [] }),
               (3, { name := "r", priority := 9, waiting := [],
                     success := [], errors := [] })],
    errors := [], next_job_pk := 1, next_queue_pk := 4 }

/-- Witness for C7: with tiers at priorities 0 and 5 under name `q`, the
key list is the priority-5 tier's waiting key first, and the sorted
collection is strictly descending. -/
theorem get_keys_strict_priority_order_witness :
    (Queue.sorted_by_priority "q" exStoreTwoTiers).Pairwise
      (fun a b => b.2.priority < a.2.priority)
    ∧ Queue.get_keys "q" exStoreTwoTiers = [waiting_key 2, waiting_key 1] := by
  have h := get_keys_strict_priority_order "q" exStoreTwoTiers (by decide)
  exact ⟨h.2.2.2.1, by decide⟩

/-- Claim C8: the record created by `Error.add_error` carries the
exception's class name as `type` (the value of `__name__` when a class
was passed, else `__class__.__name__`), its string representation as
`message`, a `code` exactly when the exception had a non-None `code`
attribute, and date/time taken from `when`, falling back to the current
UTC moment; the record is appended to the store. -/
theorem add_error_fields (queue_name identifier : String) (error : PyExc)
    (when : Option PyDateTime) (utcnow : PyDateTime) (st : Store) :
    ((Error.add_error queue_name identifier error when utcnow st).1.message
        = error.str_repr)
    ∧ ((Error.add_error queue_name identifier error when utcnow st).1.code
        = error.code)
    ∧ (∀ n, error.dunder_name = some n →
        (Error.add_error queue_name identifier error when utcnow st).1.type = n)
    ∧ (error.dunder_name = none →
        (Error.add_error queue_name identifier error when utcnow st).1.type
          = error.class_name)
    ∧ (∀ d, when = some d →
        (Error.add_error queue_name identifier error when utcnow st).1.date = d.date_str
        ∧ (Error.add_error queue_name identifier error when utcnow st).1.time = d.time_str)
    ∧ (when = none →
        (Error.add_error queue_name identifier error when utcnow st).1.date
          = utcnow.date_str
        ∧ (Error.add_error queue_name identifier error when utcnow st).1.time
          = utcnow.time_str)
    ∧ ((Error.add_error queue_name identifier error when utcnow st).2
        = { st with errors := st.errors ++
            [(Error.add_error queue_name identifier error when utcnow st).1] })
    ∧ ((Error.add_error queue_name identifier error when utcnow st).1.queue_name
        = queue_name)
    ∧ ((Error.add_error queue_name identifier error when utcnow st).1.identifier
        = identifier) := by
  refine ⟨rfl, rfl, ?_, ?_, ?_, ?_, rfl, rfl, rfl⟩
  · intro n h
    simp [Error.add_error, h]
  · intro h
    simp [Error.add_error, h]
  · intro d h
    simp [Error.add_error, h]
  · intro h
    simp [Error.add_error, h]

/-- A concrete exception instance with a `code` attribute. -/
def exExc : PyExc :=
  { dunder_name := none, class_name := "RuntimeError", str_repr := "boom",
    code := some "42" }

/-- Witness for C8: on the concrete exception, the created record has
type RuntimeError, message boom, code 42, and the caller-supplied
date and time. -/
theorem add_error_fields_witness :
    (Error.add_error "q" "x" exExc (some { date_str := "2013-01-02", time_str := "03:04:05" })
        { date_str := "now-d", time_str := "now-t" } exStore).1.type = "RuntimeError"
    ∧ (Error.add_error "q" "x" exExc (some { date_str := "2013-01-02", time_str := "03:04:05" })
        { date_str := "now-d", time_str := "now-t" } exStore).1.date = "2013-01-02" := by
  have h := add_error_fields "q" "x" exExc
    (some { date_str := "2013-01-02", time_str := "03:04:05" })
    { date_str := "now-d", time_str := "now-t" } exStore
  exact ⟨h.2.2.2.1 rfl, (h.2.2.2.2.1 { date_str := "2013-01-02", time_str := "03:04:05" } rfl).1⟩

/-- Claim C9: `Job.duration` is total — it returns the parsed difference
end minus start when both timestamp fields are set and parseable, and
`none` (the swallowed exception of the bare `except`) whenever either
field is missing or unparseable. -/
theorem duration_total_cases (parse : String → Option Int) (j : Job) :
    (∀ s e ps pe, j.start = some s → j.endt = some e → parse s = some ps →
      parse e = some pe → Job.duration parse j = some (pe - ps))
    ∧ (j.start = none → Job.duration parse j = none)
    ∧ (j.endt = none → Job.duration parse j = none)
    ∧ (∀ s, j.start = some s → parse s = none → Job.duration parse j = none)
    ∧ (∀ e, j.endt = some e → parse e = none → Job.duration parse j = none) := by
  refine ⟨?_, ?_, ?_, ?_, ?_⟩
  · intro s e ps pe hs he hps hpe
    simp [Job.duration, hs, he, hps, hpe]
  · intro h
    cases he : j.endt <;> simp [Job.duration, h, he]
  · intro h
    cases hs : j.start <;> simp [Job.duration, h, hs]
  · intro s hs hps
    cases he : j.endt with
    | none => simp [Job.duration, hs, he]
    | some e => cases hpe : parse e <;> simp [Job.duration, hs, he, hps, hpe]
  · intro e he hpe
    cases hs : j.start <;> simp [Job.duration, hs, he, hpe]

/-- A concrete decimal-timestamp parser for the witness. -/
def exParse (s : String) : Option Int :=
  (digits_to_nat s.data).map (fun n => (n : Int))

/-- Witness for C9: a job with start 10 and end 25 has duration 15; an
unparseable start yields none. -/
theorem duration_total_cases_witness :
    Job.duration exParse
      { identifier := "x", status := some Status.SUCCESS, priority := some 0,
        start := some "10", endt := some "25" } = some 15
    ∧ Job.duration exParse
      { identifier := "x", status := some Status.SUCCESS, priority := some 0,
        start := some "oops", endt := some "25" } = none := by
  have h1 := duration_total_cases exParse
    { identifier := "x", status := some Status.SUCCESS, priority := some 0,
      start := some "10", endt := some "25" }
  have h2 := duration_total_cases exParse
    { identifier := "x", status := some Status.SUCCESS, priority := some 0,
      start := some "oops", endt := some "25" }
  refine ⟨?_, ?_⟩
  · have := h1.1 "10" "25" 10 25 rfl rfl (by decide) (by decide)
    simpa using this
  · exact h2.2.2.2.1 "oops" rfl (by decide)

end LimpydJobs
